import Mathlib

/-!
Shallow embedding of the cytokit configuration and indexing core
(src/python/pipeline/codex/config.py and
src/python/pipeline/codex/cli/processor.py), together with theorems settling
the specification's claims about it.

Modelling conventions:
* Dynamic Python values reaching the CLI index resolver are modelled by
  PyVal (None, int, str, float, tuple, list); tuple and list elements are
  scalars, which distinguishes every shape the resolver inspects.
* Python exceptions are modelled by Except PyErr.  The PyErr constructors
  follow the specification's error taxonomy; in the Python source the
  validation, lookup, range, parse and unsupported-mode errors are all
  raised as ValueError, while typeError and indexError correspond to
  Python TypeError and IndexError.
* Non-negative JSON numbers feeding 1-based index fields are modelled by
  JsonNum (an integer or a non-integer numeric value, the latter carried
  as a rational), mirroring the isinstance(v, int) test in the source.
* Python floor division and modulo on integers are Int.fdiv and Int.fmod.
-/

/-- Error values; constructors named after the specification's taxonomy. -/
inductive PyErr where
  | validationError (key : String)
  | lookupError
  | rangeError
  | unsupportedModeError (name : String)
  | parseError
  | typeError
  | indexError
deriving DecidableEq

/-- A scalar Python value, as found inside argument tuples and lists. -/
inductive Scalar where
  | none
  | int (n : Int)
  | float (q : Rat)
  | str (s : String)
deriving DecidableEq

/-- A dynamic Python value as accepted by the CLI argument resolver. -/
inductive PyVal where
  | none
  | int (n : Int)
  | str (s : String)
  | float (q : Rat)
  | tuple (xs : List Scalar)
  | list (xs : List Scalar)
deriving DecidableEq

/-- Decimal digit value of a character, none on non-digits. -/
def charDigitVal (c : Char) : Option Nat :=
  if c.isDigit then some (c.toNat - 48) else none

/-- Accumulates the value of a run of decimal digits; none when a
non-digit is met. -/
def parseNatAux : List Char → Nat → Option Nat
  | [], acc => some acc
  | c :: cs, acc =>
    match charDigitVal c with
    | some d => parseNatAux cs (10 * acc + d)
    | Option.none => Option.none

/-- The Python builtin int() applied to a string, restricted to plain
decimal literals with an optional leading minus sign (the shapes the CLI
contract documents); none models the ValueError raised on anything that is
not a valid integer literal. -/
def pyIntOfString (s : String) : Option Int :=
  match s.data with
  | [] => Option.none
  | '-' :: rest =>
    match rest with
    | [] => Option.none
    | _ => (parseNatAux rest 0).map (fun n => -(n : Int))
  | l => (parseNatAux l 0).map (fun n => (n : Int))

/-- Value of Python list(range(a, b)): the integers a, a+1, ..., b-1,
empty when b ≤ a. -/
def pyRangeList (a b : Int) : List Scalar :=
  (List.range (b - a).toNat).map (fun k : Nat => Scalar.int (a + (k : Int)))

/-- Embedding of resolve_int_list_arg (cli/processor.py, lines 127-138).
None is returned as is; an int becomes a one-element list; a str is parsed
as an integer literal (Python int(arg), a ValueError on bad literals); a
tuple is read as a right-open range via range(arg[0], arg[1]) (IndexError
when the tuple has fewer than two items, TypeError when the first two items
are not integers); every other value reaches the final return statement and
is handed back unchanged. -/
def resolve_int_list_arg (arg : PyVal) : Except PyErr PyVal :=
  match arg with
  | PyVal.none => Except.ok PyVal.none
  | PyVal.int n => Except.ok (PyVal.list [Scalar.int n])
  | PyVal.str s =>
    match pyIntOfString s with
    | some n => Except.ok (PyVal.list [Scalar.int n])
    | Option.none => Except.error PyErr.parseError
  | PyVal.tuple xs =>
    match xs.get? 0, xs.get? 1 with
    | some (Scalar.int a), some (Scalar.int b) =>
      Except.ok (PyVal.list (pyRangeList a b))
    | some _, some _ => Except.error PyErr.typeError
    | _, _ => Except.error PyErr.indexError
  | other => Except.ok other

/-- The shapes given dedicated branches by resolve_int_list_arg; every other
value falls through to the final return statement. -/
def PyVal.isHandledShape : PyVal → Bool
  | PyVal.none => true
  | PyVal.int _ => true
  | PyVal.str _ => true
  | PyVal.tuple _ => true
  | _ => false

/-- Python len() on a dynamic value (TypeError on unsized values). -/
def pyLen : PyVal → Except PyErr Int
  | PyVal.list xs => Except.ok xs.length
  | PyVal.tuple xs => Except.ok xs.length
  | PyVal.str s => Except.ok s.length
  | _ => Except.error PyErr.typeError

/-- Embedding of the worker-count resolution step of Processor.localhost
(cli/processor.py, lines 93-100): gpus is first resolved through
resolve_int_list_arg; when n_workers is not given it defaults to len(gpus)
if gpus is not None, else to 1. -/
def localhost_resolve_n_workers (n_workers : Option Int) (gpus : PyVal) :
    Except PyErr Int :=
  match resolve_int_list_arg gpus with
  | Except.error e => Except.error e
  | Except.ok g =>
    match n_workers with
    | some n => Except.ok n
    | Option.none =>
      match g with
      | PyVal.none => Except.ok 1
      | _ => pyLen g

/-- C6: the index resolver is deterministic (it is a function) and, shape by
shape: None resolves to None; an integer n to the one-element list n; an
integer-literal string to the list of its value; a tuple whose first two
items are integers a and b to the list a, a+1, ..., b-1 (elements past the
second ignored), which is empty when b ≤ a; and a list is returned
unchanged, order and duplicates preserved. -/
theorem C6_resolver_shapes :
    resolve_int_list_arg PyVal.none = Except.ok PyVal.none ∧
    (∀ n : Int,
      resolve_int_list_arg (PyVal.int n) = Except.ok (PyVal.list [Scalar.int n])) ∧
    (∀ (s : String) (n : Int), pyIntOfString s = some n →
      resolve_int_list_arg (PyVal.str s) = Except.ok (PyVal.list [Scalar.int n])) ∧
    (∀ (a b : Int) (rest : List Scalar),
      resolve_int_list_arg (PyVal.tuple (Scalar.int a :: Scalar.int b :: rest)) =
        Except.ok (PyVal.list (pyRangeList a b))) ∧
    (∀ a b : Int, b ≤ a → pyRangeList a b = []) ∧
    (∀ a b : Int,
      (pyRangeList a b).length = (b - a).toNat ∧
      ∀ k : Nat, k < (b - a).toNat →
        (pyRangeList a b)[k]? = some (Scalar.int (a + k))) ∧
    (∀ xs : List Scalar,
      resolve_int_list_arg (PyVal.list xs) = Except.ok (PyVal.list xs)) := by
  refine ⟨rfl, fun n => rfl, ?_, fun a b rest => rfl, ?_, ?_, fun xs => rfl⟩
  · intro s n h
    simp [resolve_int_list_arg, h]
  · intro a b hba
    have h0 : (b - a).toNat = 0 := by omega
    simp only [pyRangeList, h0, List.range_zero, List.map_nil]
  · intro a b
    constructor
    · simp only [pyRangeList, List.length_map, List.length_range]
    · intro k hk
      simp only [pyRangeList, List.getElem?_map, List.getElem?_range hk,
        Option.map_some']

/-- Witness for C6 at the specification's sample inputs. -/
theorem C6_resolver_shapes_witness :
    resolve_int_list_arg (PyVal.str ("7")) =
      Except.ok (PyVal.list [Scalar.int 7]) ∧
    resolve_int_list_arg (PyVal.tuple [Scalar.int 1, Scalar.int 4]) =
      Except.ok (PyVal.list (pyRangeList 1 4)) ∧
    pyRangeList 3 3 = [] ∧
    resolve_int_list_arg (PyVal.list [Scalar.int 2, Scalar.int 2, Scalar.int 9]) =
      Except.ok (PyVal.list [Scalar.int 2, Scalar.int 2, Scalar.int 9]) :=
  ⟨C6_resolver_shapes.2.2.1 ("7") 7 (by decide),
   C6_resolver_shapes.2.2.2.1 1 4 [],
   C6_resolver_shapes.2.2.2.2.1 3 3 (by decide),
   C6_resolver_shapes.2.2.2.2.2.2 [Scalar.int 2, Scalar.int 2, Scalar.int 9]⟩

/-- C2 counterexample: a float is none of the five documented shapes, yet
the resolver returns it unchanged instead of failing with a TypeError-class
error. -/
theorem C2_unrecognized_shape_returned :
    resolve_int_list_arg (PyVal.float (1 / 2)) =
      Except.ok (PyVal.float (1 / 2)) := rfl

/-- C2 as amended: any value that is not absent, an integer, a string or a
tuple falls through resolve_int_list_arg's final return and is handed back
unchanged; in particular inputs of undocumented shapes are returned as is
and no TypeError-class error is raised for them. -/
theorem C2_resolver_passthrough (v : PyVal) (h : v.isHandledShape = false) :
    resolve_int_list_arg v = Except.ok v := by
  cases v with
  | none => exact absurd h (by decide)
  | int n => exact absurd h (by simp [PyVal.isHandledShape])
  | str s => exact absurd h (by simp [PyVal.isHandledShape])
  | tuple xs => exact absurd h (by simp [PyVal.isHandledShape])
  | float q => rfl
  | list xs => rfl

/-- Witness for the amended C2 at a concrete undocumented shape. -/
theorem C2_resolver_passthrough_witness :
    PyVal.isHandledShape (PyVal.float (7 / 3)) = false ∧
    resolve_int_list_arg (PyVal.float (7 / 3)) =
      Except.ok (PyVal.float (7 / 3)) :=
  ⟨rfl, C2_resolver_passthrough (PyVal.float (7 / 3)) rfl⟩

/-- C9: when no explicit worker count is supplied, the resolved worker count
is the length of the resolved GPU list when a list is supplied, and 1 when
no GPU argument is supplied. -/
theorem C9_worker_count_default :
    (∀ xs : List Scalar,
      localhost_resolve_n_workers Option.none (PyVal.list xs) =
        Except.ok (xs.length : Int)) ∧
    localhost_resolve_n_workers Option.none PyVal.none = Except.ok 1 := by
  constructor
  · intro xs
    rfl
  · rfl

/-- Witness for C9 at the specification's sample inputs: gpus given as the
list 0, 2 gives 2 workers; no gpus gives 1 worker. -/
theorem C9_worker_count_default_witness :
    localhost_resolve_n_workers Option.none
        (PyVal.list [Scalar.int 0, Scalar.int 2]) = Except.ok 2 ∧
    localhost_resolve_n_workers Option.none PyVal.none = Except.ok 1 :=
  ⟨C9_worker_count_default.1 [Scalar.int 0, Scalar.int 2],
   C9_worker_count_default.2⟩

/-- A numeric value appearing in the experiment metadata where a 1-based
index is expected: an integer, or a non-integer number carried as a
rational; mirrors the isinstance(v, int) test of the validator. -/
inductive JsonNum where
  | int (n : Int)
  | float (q : Rat)
deriving DecidableEq

/-- The Python comparison v <= 0 on a JsonNum. -/
def JsonNum.leZero : JsonNum → Bool
  | JsonNum.int n => decide (n ≤ 0)
  | JsonNum.float q => decide (q ≤ 0)

/-- The Python test isinstance(v, int). -/
def JsonNum.isInt : JsonNum → Bool
  | JsonNum.int _ => true
  | JsonNum.float _ => false

/-- Whether the value is a positive integer (the specification's wording
for admissible 1-based index fields). -/
def JsonNum.isPositiveInt : JsonNum → Bool
  | JsonNum.int n => decide (0 < n)
  | JsonNum.float _ => false

/-- The Python expression v - 1 on a JsonNum. -/
def JsonNum.subOne : JsonNum → JsonNum
  | JsonNum.int n => JsonNum.int (n - 1)
  | JsonNum.float q => JsonNum.float (q - 1)

/-- The merged configuration mapping backing CodexConfigV1 (the conf dict
of config.py): one field per key the embedded methods read.  channel_names
is the per-cycle channel-name list of Experiment.json; all_channel_names is
the flat list loaded from channelNames.txt. -/
structure ConfData where
  num_cycles : Int
  num_z_planes : Int
  channel_names : List String
  all_channel_names : List String
  tile_width : Int
  tile_height : Int
  tile_overlap_X : Int
  tile_overlap_Y : Int
  region_width : Int
  region_height : Int
  tiling_mode : String
  regIdx : List JsonNum
  driftCompReferenceCycle : JsonNum
  drift_comp_channel : JsonNum
  bestFocusReferenceCycle : JsonNum
  best_focus_channel : JsonNum
deriving DecidableEq

/-- One entry of the list produced by get_tile_indices (the TileIndices
namedtuple of config.py). -/
structure TileIndices where
  region_index : JsonNum
  tile_index : Int
  tile_x : Int
  tile_y : Int
deriving DecidableEq

/-- Property Config.n_tiles_per_region (config.py, lines 45-47). -/
def Config.n_tiles_per_region (c : ConfData) : Int :=
  c.region_width * c.region_height

/-- Property CodexConfigV1.n_channels_per_cycle (config.py, lines 117-119):
the length of the per-cycle channel-name list of Experiment.json. -/
def CodexConfigV1.n_channels_per_cycle (c : ConfData) : Nat :=
  c.channel_names.length

/-- Property CodexConfigV1.region_indexes (config.py, lines 149-152):
the 0-based region index list, each regIdx entry less one. -/
def CodexConfigV1.region_indexes (c : ConfData) : List JsonNum :=
  c.regIdx.map JsonNum.subOne

/-- Property CodexConfigV1.drift_compensation_reference (config.py,
lines 154-162). -/
def CodexConfigV1.drift_compensation_reference (c : ConfData) :
    JsonNum × JsonNum :=
  (c.driftCompReferenceCycle.subOne, c.drift_comp_channel.subOne)

/-- Property CodexConfigV1.best_focus_reference (config.py,
lines 164-172). -/
def CodexConfigV1.best_focus_reference (c : ConfData) : JsonNum × JsonNum :=
  (c.bestFocusReferenceCycle.subOne, c.best_focus_channel.subOne)

/-- Modelled from the spec: the codex.tiling module is not under src/ (only
config.py calls into it).  Per the specification a snake traversal fills
row 0 left to right, row 1 right to left, alternating; the row is the tile
index floor-divided by the region width and the column its remainder,
reversed on odd rows. -/
def snake_coordinates_from_index (tile_index w h : Int) : Int × Int :=
  let y := Int.fdiv tile_index w
  let r := Int.fmod tile_index w
  let x := if Int.fmod y 2 = 0 then r else w - 1 - r
  (x, y)

/-- Modelled from the spec: tiling.get_tiling_by_name of the codex.tiling
module is not under src/.  Per the specification a strategy is resolved by
its configured name, snake being the one built-in variant, and an unknown
name fails with UnsupportedModeError. -/
def get_tiling_by_name (name : String) :
    Except PyErr (Int → Int → Int → Int × Int) :=
  if name = "snake" then Except.ok snake_coordinates_from_index
  else Except.error (PyErr.unsupportedModeError name)

/-- Method Config.get_tile_coordinates (config.py, lines 67-82): a tile
index at or past n_tiles_per_region fails with the range error before any
strategy lookup; otherwise the strategy named by tiling_mode is resolved
and applied. -/
def Config.get_tile_coordinates (c : ConfData) (tile_index : Int) :
    Except PyErr (Int × Int) :=
  if Config.n_tiles_per_region c ≤ tile_index then
    Except.error PyErr.rangeError
  else
    match get_tiling_by_name c.tiling_mode with
    | Except.error e => Except.error e
    | Except.ok tiler =>
      Except.ok (tiler tile_index c.region_width c.region_height)

/-- The inner loop of Config.get_tile_indices (config.py, lines 60-64):
for the given region index, visit the given tile indexes in order. -/
def Config.tileLoop (c : ConfData) (ireg : JsonNum) :
    List Nat → Except PyErr (List TileIndices)
  | [] => Except.ok []
  | t :: ts =>
    match Config.get_tile_coordinates c (t : Int) with
    | Except.error e => Except.error e
    | Except.ok xy =>
      match Config.tileLoop c ireg ts with
      | Except.error e => Except.error e
      | Except.ok rest =>
        Except.ok ({ region_index := ireg, tile_index := (t : Int),
                     tile_x := xy.1, tile_y := xy.2 } :: rest)

/-- The outer loop of Config.get_tile_indices (config.py, lines 60-64):
for each region index in order, all tile indexes 0, ..,
n_tiles_per_region - 1 in order. -/
def Config.regionLoop (c : ConfData) :
    List JsonNum → Except PyErr (List TileIndices)
  | [] => Except.ok []
  | r :: rs =>
    match Config.tileLoop c r
        (List.range (Config.n_tiles_per_region c).toNat) with
    | Except.error e => Except.error e
    | Except.ok row =>
      match Config.regionLoop c rs with
      | Except.error e => Except.error e
      | Except.ok rest => Except.ok (row ++ rest)

/-- Method Config.get_tile_indices (config.py, lines 54-65). -/
def Config.get_tile_indices (c : ConfData) : Except PyErr (List TileIndices) :=
  Config.regionLoop c (CodexConfigV1.region_indexes c)

/-- Method Config.get_channel_coordinates (config.py, lines 84-97): an
unknown name fails with the lookup error; otherwise the position of the
name's first occurrence in the flat list (Python list.index) is
floor-divided by num_cycles for the cycle and reduced modulo num_cycles
for the channel. -/
def Config.get_channel_coordinates (c : ConfData) (channel_name : String) :
    Except PyErr (Int × Int) :=
  if channel_name ∈ c.all_channel_names then
    Except.ok
      (Int.fdiv ((c.all_channel_names.indexOf channel_name : Nat) : Int)
        c.num_cycles,
       Int.fmod ((c.all_channel_names.indexOf channel_name : Nat) : Int)
        c.num_cycles)
  else Except.error PyErr.lookupError

/-- Property CodexConfigV1._n_actual_channels (config.py, lines 184-186). -/
def CodexConfigV1.n_actual_channels (c : ConfData) : Nat :=
  c.all_channel_names.length

/-- Property CodexConfigV1._n_expected_channels (config.py,
lines 188-190). -/
def CodexConfigV1.n_expected_channels (c : ConfData) : Int :=
  c.num_cycles * (CodexConfigV1.n_channels_per_cycle c : Int)

/-- Sequencing of two Python statements that may raise: the second result
is produced only when the first did not raise. -/
def seqE {α : Type} (a : Except PyErr Unit) (b : Except PyErr α) :
    Except PyErr α :=
  match a with
  | Except.error e => Except.error e
  | Except.ok _ => b

/-- The validate_one_based_index helper of CodexConfigV1._validate
(config.py, lines 213-217): raises when v <= 0 or v is not an int. -/
def validate_one_based_index (k : String) (v : JsonNum) :
    Except PyErr Unit :=
  if v.leZero || !v.isInt then Except.error (PyErr.validationError k)
  else Except.ok ()

/-- The loop over regIdx entries in CodexConfigV1._validate (config.py,
lines 223-224). -/
def validateRegIdx : List JsonNum → Except PyErr Unit
  | [] => Except.ok ()
  | v :: vs =>
    seqE (validate_one_based_index ("regIdx") v) (validateRegIdx vs)

/-- Method CodexConfigV1._validate (config.py, lines 202-225): first the
channel-count invariant, then each 1-based scalar index field in the listed
order, then every regIdx entry; returns the config itself on success. -/
def CodexConfigV1.validate (c : ConfData) : Except PyErr ConfData :=
  if (CodexConfigV1.n_actual_channels c : Int) ≠
      CodexConfigV1.n_expected_channels c then
    Except.error (PyErr.validationError ("all_channel_names"))
  else
    seqE (validate_one_based_index ("driftCompReferenceCycle")
        c.driftCompReferenceCycle)
      (seqE (validate_one_based_index ("drift_comp_channel")
          c.drift_comp_channel)
        (seqE (validate_one_based_index ("bestFocusReferenceCycle")
            c.bestFocusReferenceCycle)
          (seqE (validate_one_based_index ("best_focus_channel")
              c.best_focus_channel)
            (seqE (validateRegIdx c.regIdx) (Except.ok c)))))

/-- Method CodexConfigV1.load (config.py, lines 227-235).  Reading
Experiment.json, processingOptions.json and channelNames.txt and merging
them with the caller's overrides (each layer overwriting the previous) is
file input assembly external to this embedding, so the merged mapping is
taken as the argument; load then constructs CodexConfigV1 over it and
validates before returning, exactly as the source's final line does. -/
def CodexConfigV1.load (conf : ConfData) : Except PyErr ConfData :=
  CodexConfigV1.validate conf

/-- Whether an error is of the validation kind. -/
def PyErr.isValidation : PyErr → Bool
  | PyErr.validationError _ => true
  | _ => false

/-- Whether a result is a raised validation error. -/
def failsValidation {α : Type} : Except PyErr α → Bool
  | Except.error e => PyErr.isValidation e
  | Except.ok _ => false

/-- The work unit for region r and tile t under the snake strategy. -/
def mkSnakeTile (c : ConfData) (r : JsonNum) (t : Nat) : TileIndices :=
  { region_index := r, tile_index := (t : Int),
    tile_x :=
      (snake_coordinates_from_index (t : Int) c.region_width
        c.region_height).1,
    tile_y :=
      (snake_coordinates_from_index (t : Int) c.region_width
        c.region_height).2 }

/-- The region-major, tile-minor enumeration of work units the
specification describes, with snake coordinates; get_tile_indices is
proved to return exactly this list. -/
def specTileEnumeration (c : ConfData) : List TileIndices :=
  (CodexConfigV1.region_indexes c).flatMap (fun r =>
    (List.range (Config.n_tiles_per_region c).toNat).map (mkSnakeTile c r))

/-- A well-formed base configuration used by the concrete witnesses:
2 cycles of 2 channels, a 2 by 2 region grid, snake tiling, one region. -/
def confBase : ConfData :=
  { num_cycles := 2
    num_z_planes := 1
    channel_names := ["CH1", "CH2"]
    all_channel_names := ["DAPI", "CD3", "CD4", "CD8"]
    tile_width := 3
    tile_height := 3
    tile_overlap_X := 0
    tile_overlap_Y := 0
    region_width := 2
    region_height := 2
    tiling_mode := "snake"
    regIdx := [JsonNum.int 1]
    driftCompReferenceCycle := JsonNum.int 1
    drift_comp_channel := JsonNum.int 1
    bestFocusReferenceCycle := JsonNum.int 1
    best_focus_channel := JsonNum.int 1 }

/-- confBase with an unknown tiling mode. -/
def confBogus : ConfData := { confBase with tiling_mode := "bogus" }

/-- confBase with a flat channel-name list of the wrong length. -/
def confBadLen : ConfData := { confBase with all_channel_names := ["DAPI"] }

/-- confBase with a non-positive region index entry. -/
def confBadReg : ConfData := { confBase with regIdx := [JsonNum.int 0] }

/-- confBase with a duplicated region index over a single-tile region. -/
def confDup : ConfData :=
  { confBase with region_width := 1, region_height := 1,
                  regIdx := [JsonNum.int 1, JsonNum.int 1] }

/-- confBase with a duplicated channel name in the flat list. -/
def confDupName : ConfData :=
  { confBase with all_channel_names := ["DAPI", "CD3", "DAPI", "CD8"] }

/-- Python floor division agrees with Nat division on Nat operands. -/
theorem fdiv_natCast_eq (a b : Nat) :
    Int.fdiv (a : Int) (b : Int) = ((a / b : Nat) : Int) := by
  cases a with
  | zero => simp [Int.fdiv]
  | succ m => rfl

/-- Python modulo agrees with Nat modulo on Nat operands. -/
theorem fmod_natCast_eq (a b : Nat) :
    Int.fmod (a : Int) (b : Int) = ((a % b : Nat) : Int) := by
  cases a with
  | zero => simp [Int.fmod]
  | succ m => rfl

/-- On a configured name, get_channel_coordinates divides the first
occurrence position by num_cycles and takes the remainder. -/
theorem get_channel_coordinates_eq (c : ConfData) (channel_name : String)
    (hmem : channel_name ∈ c.all_channel_names) (hc : 0 < c.num_cycles) :
    Config.get_channel_coordinates c channel_name =
      Except.ok
        (((c.all_channel_names.indexOf channel_name / c.num_cycles.toNat : Nat) : Int),
         ((c.all_channel_names.indexOf channel_name % c.num_cycles.toNat : Nat) : Int)) := by
  unfold Config.get_channel_coordinates
  rw [if_pos hmem]
  obtain ⟨m, hm⟩ : ∃ m : Nat, c.num_cycles = (m : Int) :=
    ⟨c.num_cycles.toNat, (Int.toNat_of_nonneg hc.le).symm⟩
  rw [hm, fdiv_natCast_eq, fmod_natCast_eq, Int.toNat_natCast]

/-- Python list.index returns the position characterised by holding the
element with no earlier occurrence. -/
theorem indexOf_eq_of_first {l : List String} {a : String} {i : Nat}
    (hget : l[i]? = some a) (hmin : ∀ k, k < i → l[k]? ≠ some a) :
    l.indexOf a = i := by
  induction l generalizing i with
  | nil => simp at hget
  | cons b t ih =>
    cases i with
    | zero =>
      simp only [List.getElem?_cons_zero, Option.some.injEq] at hget
      subst hget
      exact List.indexOf_cons_self b t
    | succ j =>
      have hb : b ≠ a := by
        intro hba
        exact hmin 0 (Nat.succ_pos j) (by simp [hba])
      rw [List.indexOf_cons_ne t hb]
      have ht : t[j]? = some a := by simpa using hget
      have hmt : ∀ k, k < j → t[k]? ≠ some a := by
        intro k hk
        have := hmin (k + 1) (Nat.succ_lt_succ hk)
        simpa using this
      rw [ih ht hmt]

/-- C1: for a configured channel name whose position in the flat list is i,
get_channel_coordinates returns exactly (i // n_cycles, i % n_cycles): the
divisor and the modulus are num_cycles. -/
theorem C1_channel_coordinates_formula (c : ConfData) (channel_name : String)
    (i : Nat) (hmem : channel_name ∈ c.all_channel_names)
    (hidx : c.all_channel_names.indexOf channel_name = i)
    (hc : 0 < c.num_cycles) :
    Config.get_channel_coordinates c channel_name =
      Except.ok (((i / c.num_cycles.toNat : Nat) : Int),
                 ((i % c.num_cycles.toNat : Nat) : Int)) := by
  subst hidx
  exact get_channel_coordinates_eq c channel_name hmem hc

/-- Witness for C1: CD4 sits at position 2 of confBase's flat list and
num_cycles is 2, so its coordinates are (1, 0). -/
theorem C1_channel_coordinates_formula_witness :
    Config.get_channel_coordinates confBase ("CD4") = Except.ok (1, 0) :=
  C1_channel_coordinates_formula confBase ("CD4") 2 (by decide) (by decide)
    (by decide)

/-- C10: when a channel name occurs more than once in the configured list,
get_channel_coordinates derives its coordinates from the position of the
first occurrence; the later occurrence plays no part. -/
theorem C10_duplicate_channel_first_occurrence (c : ConfData)
    (channel_name : String) (i j : Nat) (hij : i < j)
    (hi : c.all_channel_names[i]? = some channel_name)
    (hj : c.all_channel_names[j]? = some channel_name)
    (hmin : ∀ k, k < i → c.all_channel_names[k]? ≠ some channel_name)
    (hc : 0 < c.num_cycles) :
    Config.get_channel_coordinates c channel_name =
      Except.ok (((i / c.num_cycles.toNat : Nat) : Int),
                 ((i % c.num_cycles.toNat : Nat) : Int)) := by
  have hmem : channel_name ∈ c.all_channel_names := List.getElem?_mem hi
  have hidx : c.all_channel_names.indexOf channel_name = i :=
    indexOf_eq_of_first hi hmin
  rw [get_channel_coordinates_eq c channel_name hmem hc, hidx]

/-- Witness for C10: DAPI occurs at positions 0 and 2 of confDupName's
list; the lookup resolves to the coordinates of position 0. -/
theorem C10_duplicate_channel_first_occurrence_witness :
    Config.get_channel_coordinates confDupName ("DAPI") = Except.ok (0, 0) :=
  C10_duplicate_channel_first_occurrence confDupName ("DAPI") 0 2 (by decide)
    rfl rfl (fun k hk => absurd hk (Nat.not_lt_zero k)) (by decide)

/-- seqE succeeded exactly when its first statement did not raise and its
second produced the value. -/
theorem seqE_eq_ok {α : Type} {a : Except PyErr Unit} {b : Except PyErr α}
    {x : α} (h : seqE a b = Except.ok x) :
    a = Except.ok () ∧ b = Except.ok x := by
  cases a with
  | error e => simp [seqE] at h
  | ok u => exact ⟨by cases u; rfl, h⟩

/-- An error out of seqE came from the first statement or, the first
having passed, from the second. -/
theorem seqE_eq_error {α : Type} {a : Except PyErr Unit} {b : Except PyErr α}
    {e : PyErr} (h : seqE a b = Except.error e) :
    a = Except.error e ∨ (a = Except.ok () ∧ b = Except.error e) := by
  cases a with
  | error e2 =>
    left
    simp only [seqE, Except.error.injEq] at h
    rw [h]
  | ok u => exact Or.inr ⟨by cases u; rfl, h⟩

/-- validate_one_based_index accepts exactly the positive integers. -/
theorem validate_obi_ok_iff (k : String) (v : JsonNum) :
    validate_one_based_index k v = Except.ok () ↔ v.isPositiveInt = true := by
  unfold validate_one_based_index
  cases v with
  | int n =>
    simp only [JsonNum.leZero, JsonNum.isInt, JsonNum.isPositiveInt,
      Bool.not_true, Bool.or_false, decide_eq_true_eq]
    split
    · simp
      omega
    · simp
      omega
  | float q =>
    simp [JsonNum.leZero, JsonNum.isInt, JsonNum.isPositiveInt]

/-- The only error validate_one_based_index raises is the validation
error naming its key. -/
theorem validate_obi_error (k : String) (v : JsonNum) (e : PyErr)
    (h : validate_one_based_index k v = Except.error e) :
    e = PyErr.validationError k := by
  unfold validate_one_based_index at h
  split at h
  · simp only [Except.error.injEq] at h
    exact h.symm
  · simp at h

/-- The regIdx loop accepts exactly lists of positive integers. -/
theorem validateRegIdx_ok_iff (l : List JsonNum) :
    validateRegIdx l = Except.ok () ↔ ∀ v ∈ l, v.isPositiveInt = true := by
  induction l with
  | nil => simp [validateRegIdx]
  | cons v vs ih =>
    constructor
    · intro h
      simp only [validateRegIdx] at h
      obtain ⟨h1, h2⟩ := seqE_eq_ok h
      intro x hx
      rcases List.mem_cons.mp hx with rfl | hx2
      · exact (validate_obi_ok_iff _ _).mp h1
      · exact ih.mp h2 x hx2
    · intro h
      simp only [validateRegIdx]
      rw [(validate_obi_ok_iff _ _).mpr (h v (List.mem_cons_self v vs))]
      exact ih.mpr (fun x hx => h x (List.mem_cons_of_mem v hx))

/-- The only error the regIdx loop raises is the validation error naming
regIdx. -/
theorem validateRegIdx_error (l : List JsonNum) (e : PyErr)
    (h : validateRegIdx l = Except.error e) :
    e = PyErr.validationError ("regIdx") := by
  induction l with
  | nil => simp [validateRegIdx] at h
  | cons v vs ih =>
    simp only [validateRegIdx] at h
    rcases seqE_eq_error h with h1 | ⟨-, h2⟩
    · exact validate_obi_error _ _ _ h1
    · exact ih h2

/-- seqE after a passed statement is the second computation. -/
theorem seqE_ok_unit {α : Type} (b : Except PyErr α) :
    seqE (Except.ok ()) b = b := rfl

/-- _validate returns the config itself exactly when every invariant
holds: the channel-count equation and positivity of every 1-based index
field. -/
theorem validate_eq_ok_iff (c : ConfData) :
    CodexConfigV1.validate c = Except.ok c ↔
      ((CodexConfigV1.n_actual_channels c : Int) =
        CodexConfigV1.n_expected_channels c ∧
       c.driftCompReferenceCycle.isPositiveInt = true ∧
       c.drift_comp_channel.isPositiveInt = true ∧
       c.bestFocusReferenceCycle.isPositiveInt = true ∧
       c.best_focus_channel.isPositiveInt = true ∧
       ∀ v ∈ c.regIdx, v.isPositiveInt = true) := by
  unfold CodexConfigV1.validate
  by_cases hch : (CodexConfigV1.n_actual_channels c : Int) =
      CodexConfigV1.n_expected_channels c
  · rw [if_neg (not_ne_iff.mpr hch)]
    constructor
    · intro h
      obtain ⟨h1, h⟩ := seqE_eq_ok h
      obtain ⟨h2, h⟩ := seqE_eq_ok h
      obtain ⟨h3, h⟩ := seqE_eq_ok h
      obtain ⟨h4, h⟩ := seqE_eq_ok h
      obtain ⟨h5, -⟩ := seqE_eq_ok h
      exact ⟨hch, (validate_obi_ok_iff _ _).mp h1,
        (validate_obi_ok_iff _ _).mp h2, (validate_obi_ok_iff _ _).mp h3,
        (validate_obi_ok_iff _ _).mp h4, (validateRegIdx_ok_iff _).mp h5⟩
    · rintro ⟨-, h1, h2, h3, h4, h5⟩
      rw [(validate_obi_ok_iff _ _).mpr h1, seqE_ok_unit,
        (validate_obi_ok_iff _ _).mpr h2, seqE_ok_unit,
        (validate_obi_ok_iff _ _).mpr h3, seqE_ok_unit,
        (validate_obi_ok_iff _ _).mpr h4, seqE_ok_unit,
        (validateRegIdx_ok_iff _).mpr h5, seqE_ok_unit]
  · rw [if_pos hch]
    constructor
    · intro h
      simp at h
    · rintro ⟨h0, -⟩
      exact absurd h0 hch

/-- _validate only ever returns the config it was given. -/
theorem validate_eq_ok_eq (c r : ConfData)
    (h : CodexConfigV1.validate c = Except.ok r) : r = c := by
  unfold CodexConfigV1.validate at h
  split at h
  · simp at h
  · obtain ⟨-, h⟩ := seqE_eq_ok h
    obtain ⟨-, h⟩ := seqE_eq_ok h
    obtain ⟨-, h⟩ := seqE_eq_ok h
    obtain ⟨-, h⟩ := seqE_eq_ok h
    obtain ⟨-, h⟩ := seqE_eq_ok h
    injection h with h
    exact h.symm

/-- Every error _validate raises is of the validation kind. -/
theorem validate_errors_validation (c : ConfData) (e : PyErr)
    (h : CodexConfigV1.validate c = Except.error e) :
    PyErr.isValidation e = true := by
  unfold CodexConfigV1.validate at h
  split at h
  · simp only [Except.error.injEq] at h
    subst h
    rfl
  · rcases seqE_eq_error h with h1 | ⟨-, h⟩
    · rw [validate_obi_error _ _ _ h1]
      rfl
    rcases seqE_eq_error h with h1 | ⟨-, h⟩
    · rw [validate_obi_error _ _ _ h1]
      rfl
    rcases seqE_eq_error h with h1 | ⟨-, h⟩
    · rw [validate_obi_error _ _ _ h1]
      rfl
    rcases seqE_eq_error h with h1 | ⟨-, h⟩
    · rw [validate_obi_error _ _ _ h1]
      rfl
    rcases seqE_eq_error h with h1 | ⟨-, h⟩
    · rw [validateRegIdx_error _ _ h1]
      rfl
    · simp [seqE] at h

/-- C4: a flat channel-name list whose length differs from
num_cycles * n_channels_per_cycle makes load fail with the validation
error, and conversely whatever config load returns satisfies the
channel-count invariant, so no config violating it is ever returned. -/
theorem C4_channel_count_validation :
    (∀ c : ConfData,
      (CodexConfigV1.n_actual_channels c : Int) ≠
        CodexConfigV1.n_expected_channels c →
      CodexConfigV1.load c =
        Except.error (PyErr.validationError ("all_channel_names"))) ∧
    (∀ c r : ConfData, CodexConfigV1.load c = Except.ok r →
      r = c ∧ (CodexConfigV1.n_actual_channels r : Int) =
        CodexConfigV1.n_expected_channels r) := by
  constructor
  · intro c h
    unfold CodexConfigV1.load CodexConfigV1.validate
    rw [if_pos h]
  · intro c r h
    have hrc : r = c := validate_eq_ok_eq c r h
    subst hrc
    exact ⟨rfl, ((validate_eq_ok_iff r).mp h).1⟩

/-- Witness for C4: a one-name list where four are expected is rejected at
load; confBase, which load accepts, satisfies the invariant. -/
theorem C4_channel_count_validation_witness :
    CodexConfigV1.load confBadLen =
      Except.error (PyErr.validationError ("all_channel_names")) ∧
    (confBase = confBase ∧
      (CodexConfigV1.n_actual_channels confBase : Int) =
        CodexConfigV1.n_expected_channels confBase) :=
  ⟨C4_channel_count_validation.1 confBadLen (by decide),
   C4_channel_count_validation.2 confBase confBase rfl⟩

/-- C5: a 1-based index field (drift or best-focus reference cycle or
channel, or any regIdx entry) that is not a positive integer makes load
fail with a validation error; the entry 1 passes the per-entry check, and
region_indexes exposes each entry n as n - 1, so entry 1 becomes the
0-based index 0. -/
theorem C5_one_based_index_validation :
    (∀ v : JsonNum,
      v.isPositiveInt = true ↔ ∃ n : Int, v = JsonNum.int n ∧ 0 < n) ∧
    (∀ c : ConfData,
      (c.driftCompReferenceCycle.isPositiveInt = false ∨
       c.drift_comp_channel.isPositiveInt = false ∨
       c.bestFocusReferenceCycle.isPositiveInt = false ∨
       c.best_focus_channel.isPositiveInt = false ∨
       (∃ v ∈ c.regIdx, v.isPositiveInt = false)) →
      failsValidation (CodexConfigV1.load c) = true) ∧
    validate_one_based_index ("regIdx") (JsonNum.int 1) = Except.ok () ∧
    (∀ (c : ConfData) (k : Nat) (n : Int),
      c.regIdx[k]? = some (JsonNum.int n) →
      (CodexConfigV1.region_indexes c)[k]? = some (JsonNum.int (n - 1))) := by
  refine ⟨?_, ?_, rfl, ?_⟩
  · intro v
    cases v with
    | int n => simp [JsonNum.isPositiveInt]
    | float q => simp [JsonNum.isPositiveInt]
  · intro c hbad
    cases h : CodexConfigV1.validate c with
    | error e =>
      show failsValidation (CodexConfigV1.validate c) = true
      rw [h]
      exact validate_errors_validation c e h
    | ok r =>
      have hrc : r = c := validate_eq_ok_eq c r h
      subst hrc
      have hall := (validate_eq_ok_iff r).mp h
      rcases hbad with h1 | h1 | h1 | h1 | ⟨v, hv, h1⟩
      · rw [hall.2.1] at h1
        cases h1
      · rw [hall.2.2.1] at h1
        cases h1
      · rw [hall.2.2.2.1] at h1
        cases h1
      · rw [hall.2.2.2.2.1] at h1
        cases h1
      · rw [hall.2.2.2.2.2 v hv] at h1
        cases h1
  · intro c k n h
    simp [CodexConfigV1.region_indexes, List.getElem?_map, h, JsonNum.subOne]

/-- Witness for C5: a regIdx entry of 0 makes load fail with a validation
error; the entry 1 passes and confBase's single region entry 1 is exposed
as the 0-based index 0. -/
theorem C5_one_based_index_validation_witness :
    (JsonNum.isPositiveInt (JsonNum.int 1) = true ↔
      ∃ n : Int, JsonNum.int 1 = JsonNum.int n ∧ 0 < n) ∧
    failsValidation (CodexConfigV1.load confBadReg) = true ∧
    validate_one_based_index ("regIdx") (JsonNum.int 1) = Except.ok () ∧
    (CodexConfigV1.region_indexes confBase)[0]? = some (JsonNum.int 0) :=
  ⟨C5_one_based_index_validation.1 (JsonNum.int 1),
   C5_one_based_index_validation.2.1 confBadReg
     (Or.inr (Or.inr (Or.inr (Or.inr ⟨JsonNum.int 0, by decide, rfl⟩)))),
   C5_one_based_index_validation.2.2.1,
   C5_one_based_index_validation.2.2.2 confBase 0 1 rfl⟩

/-- C8: any tile index at or past n_tiles_per_region (the product of the
region grid dimensions) makes get_tile_coordinates fail with the range
error instead of returning coordinates. -/
theorem C8_tile_index_range_check (c : ConfData) (tile_index : Int)
    (h : Config.n_tiles_per_region c ≤ tile_index) :
    Config.get_tile_coordinates c tile_index = Except.error PyErr.rangeError ∧
    Config.n_tiles_per_region c = c.region_width * c.region_height := by
  refine ⟨?_, rfl⟩
  unfold Config.get_tile_coordinates
  rw [if_pos h]

/-- Witness for C8: confBase has a 2 by 2 region, so tile index 4 is
rejected. -/
theorem C8_tile_index_range_check_witness :
    Config.get_tile_coordinates confBase 4 = Except.error PyErr.rangeError ∧
    Config.n_tiles_per_region confBase =
      confBase.region_width * confBase.region_height :=
  C8_tile_index_range_check confBase 4 (by decide)

/-- C3 counterexample: a config whose tiling mode is the unknown name
bogus loads successfully; the unsupported-mode error only appears when
get_tile_coordinates is called. -/
theorem C3_load_accepts_unknown_tiling_mode :
    CodexConfigV1.load confBogus = Except.ok confBogus ∧
    Config.get_tile_coordinates confBogus 0 =
      Except.error (PyErr.unsupportedModeError ("bogus")) :=
  ⟨rfl, rfl⟩

/-- C3 as amended: load never fails because of the tiling-mode name (every
load error is a validation error, never an unsupported-mode error); an
unknown tiling-mode name instead fails with UnsupportedModeError when
get_tile_coordinates is called with an in-range tile index. -/
theorem C3_tiling_mode_resolved_lazily :
    (∀ (c : ConfData) (e : PyErr),
      CodexConfigV1.load c = Except.error e → PyErr.isValidation e = true) ∧
    (∀ (c : ConfData) (tile_index : Int),
      tile_index < Config.n_tiles_per_region c →
      c.tiling_mode ≠ "snake" →
      Config.get_tile_coordinates c tile_index =
        Except.error (PyErr.unsupportedModeError c.tiling_mode)) := by
  constructor
  · intro c e h
    exact validate_errors_validation c e h
  · intro c ti hti hmode
    unfold Config.get_tile_coordinates
    rw [if_neg (not_le.mpr hti)]
    unfold get_tiling_by_name
    rw [if_neg hmode]

/-- Witness for the amended C3: confBadLen's load error is a validation
error, and confBogus's unknown mode surfaces at get_tile_coordinates. -/
theorem C3_tiling_mode_resolved_lazily_witness :
    PyErr.isValidation (PyErr.validationError ("all_channel_names")) = true ∧
    Config.get_tile_coordinates confBogus 0 =
      Except.error (PyErr.unsupportedModeError confBogus.tiling_mode) :=
  ⟨C3_tiling_mode_resolved_lazily.1 confBadLen
     (PyErr.validationError ("all_channel_names")) rfl,
   C3_tiling_mode_resolved_lazily.2 confBogus 0 (by decide) (by decide)⟩

/-- Under the snake mode an in-range tile index resolves to the snake
coordinates. -/
theorem get_tile_coordinates_snake (c : ConfData)
    (hmode : c.tiling_mode = "snake") (t : Nat)
    (ht : (t : Int) < Config.n_tiles_per_region c) :
    Config.get_tile_coordinates c (t : Int) =
      Except.ok
        (snake_coordinates_from_index (t : Int) c.region_width
          c.region_height) := by
  unfold Config.get_tile_coordinates
  rw [if_neg (not_le.mpr ht)]
  unfold get_tiling_by_name
  rw [hmode, if_pos rfl]

/-- The inner tile loop succeeds on in-range tile indexes and produces one
work unit per index, in order. -/
theorem tileLoop_ok (c : ConfData) (hmode : c.tiling_mode = "snake")
    (r : JsonNum) (ts : List Nat)
    (hts : ∀ t ∈ ts, (t : Int) < Config.n_tiles_per_region c) :
    Config.tileLoop c r ts = Except.ok (ts.map (mkSnakeTile c r)) := by
  induction ts with
  | nil => rfl
  | cons t ts ih =>
    have ht := hts t (List.mem_cons_self t ts)
    simp only [Config.tileLoop, get_tile_coordinates_snake c hmode t ht,
      ih (fun x hx => hts x (List.mem_cons_of_mem t hx)), List.map_cons]
    rfl

/-- Under the snake mode get_tile_indices succeeds and returns exactly the
region-major, tile-minor enumeration. -/
theorem get_tile_indices_snake (c : ConfData)
    (hmode : c.tiling_mode = "snake") :
    Config.get_tile_indices c = Except.ok (specTileEnumeration c) := by
  unfold Config.get_tile_indices specTileEnumeration
  generalize CodexConfigV1.region_indexes c = rs
  induction rs with
  | nil => rfl
  | cons r rs ih =>
    have hts : ∀ t ∈ List.range (Config.n_tiles_per_region c).toNat,
        (t : Int) < Config.n_tiles_per_region c := by
      intro t htm
      have := List.mem_range.mp htm
      omega
    simp only [Config.regionLoop, tileLoop_ok c hmode r _ hts, ih,
      List.flatMap_cons]

/-- Length of a flat map whose rows all have the same length. -/
theorem flatMap_const_length {α β : Type} (rs : List α) (f : α → List β)
    (n : Nat) (h : ∀ r ∈ rs, (f r).length = n) :
    (rs.flatMap f).length = rs.length * n := by
  induction rs with
  | nil => simp
  | cons r rs ih =>
    simp only [List.flatMap_cons, List.length_append, List.length_cons,
      h r (List.mem_cons_self r rs),
      ih (fun x hx => h x (List.mem_cons_of_mem r hx))]
    ring

/-- The enumeration has one work unit per region and in-range tile. -/
theorem specTileEnumeration_length (c : ConfData) :
    (specTileEnumeration c).length =
      (CodexConfigV1.region_indexes c).length *
        (Config.n_tiles_per_region c).toNat := by
  unfold specTileEnumeration
  exact flatMap_const_length _ _ _ (fun r hr => by simp)

/-- The (region, tile) pairs of the enumeration, region-major then
tile-minor. -/
theorem specTileEnumeration_pairs (c : ConfData) :
    (specTileEnumeration c).map (fun u => (u.region_index, u.tile_index)) =
      (CodexConfigV1.region_indexes c).flatMap
        (fun r => (List.range (Config.n_tiles_per_region c).toNat).map
          (fun t : Nat => (r, (t : Int)))) := by
  unfold specTileEnumeration
  simp only [List.map_flatMap, List.map_map]
  rfl

/-- Distinct regions paired with distinct tile indexes give pairwise
distinct pairs. -/
theorem pairs_nodup {rs : List JsonNum} (n : Nat) (hnd : rs.Nodup) :
    (rs.flatMap
      (fun r => (List.range n).map (fun t : Nat => (r, (t : Int))))).Nodup := by
  induction rs with
  | nil => simp
  | cons r rs ih =>
    simp only [List.flatMap_cons]
    have hnd2 := List.nodup_cons.mp hnd
    apply List.Nodup.append
    · refine List.Nodup.map ?_ (List.nodup_range n)
      intro a b hab
      have := congrArg Prod.snd hab
      simpa using this
    · exact ih hnd2.2
    · intro x hx1 hx2
      obtain ⟨t, -, rfl⟩ := List.mem_map.mp hx1
      obtain ⟨r2, hr2, hx⟩ := List.mem_flatMap.mp hx2
      obtain ⟨t2, -, he⟩ := List.mem_map.mp hx
      have h1 : r2 = r := (Prod.ext_iff.mp he).1
      exact hnd2.1 (h1 ▸ hr2)

/-- C7 as amended: for a validated config whose tiling mode is the
recognized snake mode and whose region grid dimensions are nonnegative,
get_tile_indices succeeds and returns exactly the region-major, tile-minor
enumeration of len(region_indexes) * region_width * region_height work
units; when the configured region indexes are pairwise distinct, each
(region, tile) pair appears exactly once. -/
theorem C7_tile_enumeration (c : ConfData)
    (hload : CodexConfigV1.load c = Except.ok c)
    (hmode : c.tiling_mode = "snake")
    (hw : 0 ≤ c.region_width) (hh : 0 ≤ c.region_height)
    (hnd : (CodexConfigV1.region_indexes c).Nodup) :
    Config.get_tile_indices c = Except.ok (specTileEnumeration c) ∧
    ((specTileEnumeration c).length : Int) =
      (CodexConfigV1.region_indexes c).length *
        (c.region_width * c.region_height) ∧
    (specTileEnumeration c).map (fun u => (u.region_index, u.tile_index)) =
      (CodexConfigV1.region_indexes c).flatMap
        (fun r => (List.range (Config.n_tiles_per_region c).toNat).map
          (fun t : Nat => (r, (t : Int)))) ∧
    ((specTileEnumeration c).map
      (fun u => (u.region_index, u.tile_index))).Nodup := by
  refine ⟨get_tile_indices_snake c hmode, ?_, specTileEnumeration_pairs c, ?_⟩
  · rw [specTileEnumeration_length c]
    have hmul : 0 ≤ c.region_width * c.region_height := mul_nonneg hw hh
    simp only [Config.n_tiles_per_region]
    rw [Nat.cast_mul, Int.toNat_of_nonneg hmul]
  · rw [specTileEnumeration_pairs c]
    exact pairs_nodup _ hnd

/-- C7 counterexample: confDup passes validation with the duplicated
region entry 1 over a single-tile region, and get_tile_indices then
repeats the (region, tile) pair (0, 0), so the pairs of a validated
config's work units need not be unique. -/
theorem C7_duplicate_region_pairs :
    CodexConfigV1.load confDup = Except.ok confDup ∧
    Config.get_tile_indices confDup = Except.ok
      [{ region_index := JsonNum.int 0, tile_index := 0,
         tile_x := 0, tile_y := 0 },
       { region_index := JsonNum.int 0, tile_index := 0,
         tile_x := 0, tile_y := 0 }] ∧
    ¬ (([{ region_index := JsonNum.int 0, tile_index := 0,
           tile_x := 0, tile_y := 0 },
         { region_index := JsonNum.int 0, tile_index := 0,
           tile_x := 0, tile_y := 0 }] : List TileIndices).map
        (fun u => (u.region_index, u.tile_index))).Nodup :=
  ⟨rfl, rfl, by decide⟩

/-- Witness for the amended C7 at confBase: one region of four tiles. -/
theorem C7_tile_enumeration_witness :
    Config.get_tile_indices confBase =
      Except.ok (specTileEnumeration confBase) ∧
    ((specTileEnumeration confBase).length : Int) =
      (CodexConfigV1.region_indexes confBase).length *
        (confBase.region_width * confBase.region_height) ∧
    (specTileEnumeration confBase).map
        (fun u => (u.region_index, u.tile_index)) =
      (CodexConfigV1.region_indexes confBase).flatMap
        (fun r => (List.range
            (Config.n_tiles_per_region confBase).toNat).map
          (fun t : Nat => (r, (t : Int)))) ∧
    ((specTileEnumeration confBase).map
      (fun u => (u.region_index, u.tile_index))).Nodup :=
  C7_tile_enumeration confBase rfl rfl (by decide) (by decide) (by decide)
